import Mathlib

/-!
Shallow embedding of the rhythm-game core of `src/src/app/page.tsx`
(the developed variant of the component: key-mode / difficulty selection,
thresholds 40/80, tiered combo bonus, pause-offset clock).

Times and positions are JavaScript numbers in the source; they are embedded
as rationals (`ℚ`).  Counters (score, combo, note ids) are natural numbers.
-/

namespace MusicGame

/-- Constant `JUDGMENT_LINE_Y = 500` from the source. -/
def JUDGMENT_LINE_Y : ℚ := 500

/-- Constant `PERFECT_THRESHOLD = 40` from the source. -/
def PERFECT_THRESHOLD : ℚ := 40

/-- Constant `GOOD_THRESHOLD = 80` from the source. -/
def GOOD_THRESHOLD : ℚ := 80

/-- Constant `BASE_NOTE_SPEED = 350` (pixels per second) from the source. -/
def BASE_NOTE_SPEED : ℚ := 350

/-- The `Note` interface: `{id, lane, startTime, currentY, hit}`
(the optional DOM `element` field is presentation-layer state and is omitted). -/
structure Note where
  id : Nat
  lane : Nat
  startTime : ℚ
  currentY : ℚ
  hit : Bool
  deriving DecidableEq, Repr

/-- The `GameStats` interface: `{score, combo, maxCombo, perfect, good, miss}`. -/
structure GameStats where
  score : Nat
  combo : Nat
  maxCombo : Nat
  perfect : Nat
  good : Nat
  miss : Nat
  deriving DecidableEq, Repr

/-- Judgment outcome of a keypress: the `"PERFECT!"` / `"GOOD"` judgment texts,
or no judgment at all (empty `judgmentText` / no qualifying note). -/
inductive Judgment where
  | PERFECT
  | GOOD
  | NONE
  deriving DecidableEq, Repr

/-- The filter predicate of `checkNoteHit`:
`note.lane === lane && !note.hit && note.currentY > JUDGMENT_LINE_Y - GOOD_THRESHOLD
&& note.currentY < JUDGMENT_LINE_Y + GOOD_THRESHOLD`. -/
def qualifiesHit (lane : Nat) (note : Note) : Bool :=
  note.lane == lane && !note.hit &&
    decide (JUDGMENT_LINE_Y - GOOD_THRESHOLD < note.currentY) &&
    decide (note.currentY < JUDGMENT_LINE_Y + GOOD_THRESHOLD)

/-- Absolute distance of a note to the judgment line:
`Math.abs(note.currentY - JUDGMENT_LINE_Y)`. -/
def noteDistance (note : Note) : ℚ :=
  |note.currentY - JUDGMENT_LINE_Y|

/-- One step of the `laneNotes.reduce` accumulator in `checkNoteHit`:
`currentDistance < closestDistance ? note : closest`. -/
def closerNote (closest note : Note) : Note :=
  if noteDistance note < noteDistance closest then note else closest

/-- The `setNotes(prev => prev.map(note => note.id === hitId ? {...note, hit: true} : note))`
update used by both the hit path and the miss path. -/
def markHit (noteId : Nat) (notes : List Note) : List Note :=
  notes.map fun n => if n.id == noteId then { n with hit := true } else n

/-- The combo bonus factor `Math.max(1, Math.floor(prev.combo / 10) + 1)`. -/
def comboTier (combo : Nat) : Nat :=
  max 1 (combo / 10 + 1)

/-- Result of one `checkNoteHit` call: the judgment shown, the new note list
and the new stats. -/
structure HitResult where
  judgment : Judgment
  notes : List Note
  stats : GameStats
  deriving DecidableEq, Repr

/-- The judgment engine `checkNoteHit(lane)`: filter the lane's unresolved notes
inside the good window, pick the one nearest the judgment line with `reduce`,
classify by distance and update notes and stats. -/
def checkNoteHit (lane : Nat) (notes : List Note) (stats : GameStats) : HitResult :=
  match notes.filter (qualifiesHit lane) with
  | [] => ⟨Judgment.NONE, notes, stats⟩
  | h :: t =>
    let closest := t.foldl closerNote h
    let distance := noteDistance closest
    if distance < PERFECT_THRESHOLD then
      ⟨Judgment.PERFECT, markHit closest.id notes,
        { stats with
            perfect := stats.perfect + 1
            combo := stats.combo + 1
            score := stats.score + 1000 * comboTier stats.combo }⟩
    else if distance < GOOD_THRESHOLD then
      ⟨Judgment.GOOD, markHit closest.id notes,
        { stats with
            good := stats.good + 1
            combo := stats.combo + 1
            score := stats.score + 500 * comboTier stats.combo }⟩
    else
      ⟨Judgment.NONE, notes, stats⟩

/-- Derived position of a note in the game loop:
`(noteTime / 1000) * BASE_NOTE_SPEED * speedMultiplier * difficultySpeedMultiplier`
where `noteTime = elapsed - note.startTime`. -/
def notePosition (elapsed speedMultiplier diffSpeed : ℚ) (note : Note) : ℚ :=
  (elapsed - note.startTime) / 1000 * BASE_NOTE_SPEED * speedMultiplier * diffSpeed

/-- The per-frame position update: `setNotes(prev => prev.map(note => note.hit ? note
: {...note, currentY: newY}))`. -/
def updatePositions (elapsed speedMultiplier diffSpeed : ℚ) (notes : List Note) : List Note :=
  notes.map fun note =>
    if note.hit then note
    else { note with currentY := notePosition elapsed speedMultiplier diffSpeed note }

/-- The per-frame miss condition:
`note.currentY > JUDGMENT_LINE_Y + GOOD_THRESHOLD && !note.hit`. -/
def isMissed (note : Note) : Bool :=
  decide (JUDGMENT_LINE_Y + GOOD_THRESHOLD < note.currentY) && !note.hit

/-- The stats update fired for each missed note:
`{...prev, miss: prev.miss + 1, combo: 0, maxCombo: Math.max(prev.maxCombo, prev.combo)}`. -/
def missStats (s : GameStats) : GameStats :=
  { s with miss := s.miss + 1, combo := 0, maxCombo := max s.maxCombo s.combo }

/-- The stats effect of one frame's miss sweep: the `notes.forEach` loop fires
`missStats` once per note that satisfies the miss condition, in list order. -/
def missSweepStats (notes : List Note) (stats : GameStats) : GameStats :=
  notes.foldl (fun s note => if isMissed note then missStats s else s) stats

/-- The notes effect of one frame's miss sweep: for each note of the frame's
snapshot that satisfies the miss condition, a `setNotes` marking that note's id
as hit is applied, in list order. -/
def missSweepNotes (notes : List Note) : List Note :=
  (notes.filter isMissed).foldl (fun acc m => markHit m.id acc) notes

/-- Clock state: the two refs `startTimeRef` and `pauseTimeRef` (both start at `0`,
and `0` doubles as "unset" through JavaScript truthiness). -/
structure ClockState where
  startTime : ℚ
  pauseTime : ℚ
  deriving DecidableEq, Repr

/-- The clock part of one `gameLoop(timestamp)` tick:
`if (!startTimeRef.current) startTimeRef.current = timestamp - pauseTimeRef.current`
then `elapsed = timestamp - startTimeRef.current`.  Returns the new clock state
and the elapsed value used by the frame. -/
def tickClock (timestamp : ℚ) (c : ClockState) : ClockState × ℚ :=
  let st := if c.startTime = 0 then timestamp - c.pauseTime else c.startTime
  (⟨st, c.pauseTime⟩, timestamp - st)

/-- The pause half of `togglePause`:
`if (startTimeRef.current) pauseTimeRef.current = performance.now() - startTimeRef.current`.
`now` stands for the `performance.now()` reading at the pause. -/
def pauseClock (now : ℚ) (c : ClockState) : ClockState :=
  if c.startTime = 0 then c else ⟨c.startTime, now - c.startTime⟩

/-- The resume half of `togglePause`: `startTimeRef.current = 0`, preserving the
accumulated pause offset. -/
def resumeClock (c : ClockState) : ClockState :=
  ⟨0, c.pauseTime⟩

/-- The difficulty levels of `DIFFICULTY_SETTINGS`. -/
inductive Difficulty where
  | easy
  | normal
  | hard
  deriving DecidableEq, Repr

/-- The `noteInterval: {min, max}` field of a difficulty setting. -/
structure NoteInterval where
  intervalMin : ℚ
  intervalMax : ℚ
  deriving DecidableEq, Repr

/-- One entry of `DIFFICULTY_SETTINGS` (the `name` and `color` display fields
are omitted). -/
structure DiffConfig where
  noteInterval : NoteInterval
  patternComplexity : ℚ
  speedMultiplier : ℚ
  deriving DecidableEq, Repr

/-- The `DIFFICULTY_SETTINGS` table:
easy `{interval 800..1200, complexity 0.3, speed 0.8}`,
normal `{400..800, 0.6, 1.0}`, hard `{200..600, 1.0, 1.2}`. -/
def DIFFICULTY_SETTINGS : Difficulty → DiffConfig
  | Difficulty.easy => ⟨⟨800, 1200⟩, 3/10, 8/10⟩
  | Difficulty.normal => ⟨⟨400, 800⟩, 6/10, 1⟩
  | Difficulty.hard => ⟨⟨200, 600⟩, 1, 12/10⟩

/-- The `generatePatterns()` closure inside `generateNotes`: singles always,
adjacent/skip doubles above complexity `0.6`, triples for complexity `1.0` with
at least six lanes, quads for complexity `1.0` with at least eight lanes, and a
final length-two cutoff in easy mode. -/
def generatePatterns (lanes : Nat) (difficulty : Difficulty) : List (List Nat) :=
  let diffConfig := DIFFICULTY_SETTINGS difficulty
  let singles := (List.range lanes).map fun i => [i]
  let doubles :=
    if diffConfig.patternComplexity ≥ 6/10 then
      (((List.range (lanes - 1)).map fun i =>
        [i, i + 1] :: (if i < lanes - 2 then [[i, i + 2]] else []))).flatten
    else []
  let triples :=
    if diffConfig.patternComplexity ≥ 1 ∧ lanes ≥ 6 then
      (List.range (lanes - 2)).map fun i => [i, i + 1, i + 2]
    else []
  let quads :=
    if diffConfig.patternComplexity ≥ 1 ∧ lanes ≥ 8 then
      [[0, 1, 2, 3], [4, 5, 6, 7], [0, 2, 4, 6], [1, 3, 5, 7]]
    else []
  let patterns := singles ++ doubles ++ triples ++ quads
  if difficulty = Difficulty.easy then patterns.filter (fun p => p.length ≤ 2) else patterns

/-- The per-step pattern selection of `generateNotes`.  `rand k` is the value of
the `k`-th `Math.random()` call; the result pairs the chosen pattern with the
next unused random index.  Easy mode draws twice (the `< 0.7` bias and the
index); other modes draw once.  Out-of-range indexing (impossible for
`rand k ∈ [0, 1)`) falls back to the JavaScript `|| singleNotes[0]` default. -/
def selectPattern (difficulty : Difficulty) (patterns : List (List Nat))
    (rand : Nat → ℚ) (k : Nat) : List Nat × Nat :=
  if difficulty = Difficulty.easy then
    let singleNotes := patterns.filter fun p => p.length == 1
    let doubleNotes := patterns.filter fun p => p.length == 2
    if rand k < 7/10 then
      (singleNotes.getD (⌊rand (k + 1) * singleNotes.length⌋).toNat (singleNotes.getD 0 []), k + 2)
    else
      (doubleNotes.getD (⌊rand (k + 1) * doubleNotes.length⌋).toNat (singleNotes.getD 0 []), k + 2)
  else
    (patterns.getD (⌊rand k * patterns.length⌋).toNat [], k + 1)

/-- The emission loop of `generateNotes`:
`for (time = 3000; time < 90000; time += interval.min + Math.random() * (interval.max - interval.min))`,
emitting one note per lane of the selected pattern, all sharing the step's
time, with consecutively increasing ids.  The source loop always advances
`time` by at least `interval.min > 0`, so it terminates; the `fuel` argument
makes that termination explicit and is never exhausted for such draws. -/
def genLoop (difficulty : Difficulty) (patterns : List (List Nat)) (rand : Nat → ℚ) :
    Nat → ℚ → Nat → Nat → List Note → List Note
  | 0, _, _, _, acc => acc
  | fuel + 1, time, k, nextId, acc =>
    if time < 90000 then
      let sel := selectPattern difficulty patterns rand k
      let emitted := sel.1.enum.map fun p => (⟨nextId + p.1, p.2, time, -100, false⟩ : Note)
      let cfg := DIFFICULTY_SETTINGS difficulty
      let step := cfg.noteInterval.intervalMin +
        rand sel.2 * (cfg.noteInterval.intervalMax - cfg.noteInterval.intervalMin)
      genLoop difficulty patterns rand fuel (time + step) (sel.2 + 1) (nextId + sel.1.length)
        (acc ++ emitted)
    else acc

/-- The chart generator `generateNotes()`: build the pattern set for the active
key mode and difficulty, emit notes along the time cursor, and return
`newNotes.sort((a, b) => a.startTime - b.startTime)`. -/
def generateNotes (keyMode : Nat) (difficulty : Difficulty) (rand : Nat → ℚ) (fuel : Nat) :
    List Note :=
  let patterns := generatePatterns keyMode difficulty
  let newNotes := genLoop difficulty patterns rand fuel 3000 0 0 []
  newNotes.mergeSort fun a b => decide (a.startTime ≤ b.startTime)

/-- The session states of the component: `"menu" | "playing" | "paused" | "ended"`. -/
inductive GameStatus where
  | menu
  | playing
  | paused
  | ended
  deriving DecidableEq, Repr

/-- The four-key `keyMap` of `KEY_MODES[4]`: `KeyA/ArrowLeft -> 0`,
`KeyS/ArrowDown -> 1`, `KeyD/ArrowUp -> 2`, `KeyF/ArrowRight -> 3`,
anything else unmapped. -/
def keyMap4 (code : String) : Option Nat :=
  if code = "KeyA" then some 0
  else if code = "ArrowLeft" then some 0
  else if code = "KeyS" then some 1
  else if code = "ArrowDown" then some 1
  else if code = "KeyD" then some 2
  else if code = "ArrowUp" then some 2
  else if code = "KeyF" then some 3
  else if code = "ArrowRight" then some 3
  else none

/-- The state read and written by the key handlers: session state, the
`pressedKeys` set, and the note list and stats that `checkNoteHit` touches. -/
structure InputState where
  gameStatus : GameStatus
  pressedKeys : List Nat
  notes : List Note
  stats : GameStats
  deriving DecidableEq, Repr

/-- The `handleKeyDown` callback: bail out unless the game is playing, map the
key code to a lane, and if that lane's key is not already held, record it as
pressed and run `checkNoteHit`. -/
def handleKeyDown (code : String) (s : InputState) : InputState :=
  if s.gameStatus ≠ GameStatus.playing then s
  else
    match keyMap4 code with
    | none => s
    | some lane =>
      if lane ∈ s.pressedKeys then s
      else
        let r := checkNoteHit lane s.notes s.stats
        { s with pressedKeys := lane :: s.pressedKeys, notes := r.notes, stats := r.stats }

/-- The `handleKeyUp` callback: map the key code to a lane and delete it from
the `pressedKeys` set (no game-state gate in the source). -/
def handleKeyUp (code : String) (s : InputState) : InputState :=
  match keyMap4 code with
  | none => s
  | some lane => { s with pressedKeys := s.pressedKeys.filter fun k => k != lane }

/-- All-zero stats, the initial `GameStats` of `startGame`. -/
def stats0 : GameStats :=
  ⟨0, 0, 0, 0, 0, 0⟩

/-- A single unresolved probe note in lane 0 at vertical position `y`,
used to state judgment-boundary facts. -/
def probeNote (y : ℚ) : Note :=
  ⟨0, 0, 1000, y, false⟩

/-- Default note for positional (`getD`) statements; it is resolved, so the
frozen-note lemmas hold for out-of-range indices as well. -/
def dummyNote : Note :=
  ⟨0, 0, 0, 0, true⟩

/-- Unfolding lemma for `checkNoteHit` when the lane filter is empty. -/
theorem checkNoteHit_nil (lane : Nat) (notes : List Note) (stats : GameStats)
    (hfil : notes.filter (qualifiesHit lane) = []) :
    checkNoteHit lane notes stats = ⟨Judgment.NONE, notes, stats⟩ := by
  unfold checkNoteHit
  rw [hfil]

/-- Unfolding lemma for `checkNoteHit` when the lane filter is nonempty. -/
theorem checkNoteHit_cons (lane : Nat) (notes : List Note) (stats : GameStats)
    (h : Note) (t : List Note) (hfil : notes.filter (qualifiesHit lane) = h :: t) :
    checkNoteHit lane notes stats =
      (if noteDistance (t.foldl closerNote h) < PERFECT_THRESHOLD then
        ⟨Judgment.PERFECT, markHit (t.foldl closerNote h).id notes,
          { stats with
              perfect := stats.perfect + 1
              combo := stats.combo + 1
              score := stats.score + 1000 * comboTier stats.combo }⟩
      else if noteDistance (t.foldl closerNote h) < GOOD_THRESHOLD then
        ⟨Judgment.GOOD, markHit (t.foldl closerNote h).id notes,
          { stats with
              good := stats.good + 1
              combo := stats.combo + 1
              score := stats.score + 500 * comboTier stats.combo }⟩
      else
        ⟨Judgment.NONE, notes, stats⟩) := by
  unfold checkNoteHit
  rw [hfil]


/-- Bridge lemma: the two window comparisons of `qualifiesHit` on a lane-0
probe note say exactly that its distance to the judgment line is below the
good threshold. -/
theorem qualifiesHit_probe (y : ℚ) :
    qualifiesHit 0 (probeNote y) = decide (|y - JUDGMENT_LINE_Y| < GOOD_THRESHOLD) := by
  unfold qualifiesHit probeNote
  simp only [beq_self_eq_true, Bool.not_false, Bool.true_and]
  rw [← Bool.decide_and]
  refine decide_eq_decide.mpr ?_
  rw [abs_sub_lt_iff]
  constructor
  · rintro ⟨h1, h2⟩
    constructor <;> linarith
  · rintro ⟨h1, h2⟩
    constructor <;> linarith

/-- The lane filter keeps an in-window probe note. -/
theorem filter_probe_in (y : ℚ) (h : |y - JUDGMENT_LINE_Y| < GOOD_THRESHOLD) :
    [probeNote y].filter (qualifiesHit 0) = [probeNote y] := by
  simp [List.filter, qualifiesHit_probe, h]

/-- The lane filter drops an out-of-window probe note. -/
theorem filter_probe_out (y : ℚ) (h : GOOD_THRESHOLD ≤ |y - JUDGMENT_LINE_Y|) :
    [probeNote y].filter (qualifiesHit 0) = [] := by
  simp [List.filter, qualifiesHit_probe, not_lt.mpr h]

/-- Full evaluation of `checkNoteHit` on a single lane-0 probe note, split by
the three distance ranges. -/
theorem checkNoteHit_probe (y : ℚ) (stats : GameStats) :
    (|y - JUDGMENT_LINE_Y| < PERFECT_THRESHOLD →
      checkNoteHit 0 [probeNote y] stats =
        ⟨Judgment.PERFECT, [⟨0, 0, 1000, y, true⟩],
          { stats with
              perfect := stats.perfect + 1
              combo := stats.combo + 1
              score := stats.score + 1000 * comboTier stats.combo }⟩) ∧
    (PERFECT_THRESHOLD ≤ |y - JUDGMENT_LINE_Y| → |y - JUDGMENT_LINE_Y| < GOOD_THRESHOLD →
      checkNoteHit 0 [probeNote y] stats =
        ⟨Judgment.GOOD, [⟨0, 0, 1000, y, true⟩],
          { stats with
              good := stats.good + 1
              combo := stats.combo + 1
              score := stats.score + 500 * comboTier stats.combo }⟩) ∧
    (GOOD_THRESHOLD ≤ |y - JUDGMENT_LINE_Y| →
      checkNoteHit 0 [probeNote y] stats = ⟨Judgment.NONE, [probeNote y], stats⟩) := by
  have hPG : PERFECT_THRESHOLD < GOOD_THRESHOLD := by
    norm_num [PERFECT_THRESHOLD, GOOD_THRESHOLD]
  refine ⟨?_, ?_, ?_⟩
  · intro h40
    have h80 : |y - JUDGMENT_LINE_Y| < GOOD_THRESHOLD := lt_trans h40 hPG
    rw [checkNoteHit_cons 0 [probeNote y] stats (probeNote y) [] (filter_probe_in y h80)]
    rw [if_pos (show noteDistance (List.foldl closerNote (probeNote y) []) <
      PERFECT_THRESHOLD from h40)]
    rfl
  · intro h40 h80
    rw [checkNoteHit_cons 0 [probeNote y] stats (probeNote y) [] (filter_probe_in y h80)]
    rw [if_neg (show ¬ noteDistance (List.foldl closerNote (probeNote y) []) <
      PERFECT_THRESHOLD from not_lt.mpr h40)]
    rw [if_pos (show noteDistance (List.foldl closerNote (probeNote y) []) <
      GOOD_THRESHOLD from h80)]
    rfl
  · intro h80
    exact checkNoteHit_nil 0 [probeNote y] stats (filter_probe_out y h80)

/-- C2: the score increment of a classified hit is the base value (1000 for
PERFECT, 500 for GOOD) times `max 1 (floor(priorCombo / 10) + 1)`, the combo
tier of the combo held at the moment of the hit. -/
theorem c2_score_increment_is_tiered (lane : Nat) (notes : List Note) (stats : GameStats) :
    ((checkNoteHit lane notes stats).judgment = Judgment.PERFECT →
      (checkNoteHit lane notes stats).stats.score =
        stats.score + 1000 * max 1 (stats.combo / 10 + 1)) ∧
    ((checkNoteHit lane notes stats).judgment = Judgment.GOOD →
      (checkNoteHit lane notes stats).stats.score =
        stats.score + 500 * max 1 (stats.combo / 10 + 1)) := by
  cases hfil : notes.filter (qualifiesHit lane) with
  | nil =>
    rw [checkNoteHit_nil lane notes stats hfil]
    refine ⟨fun hj => ?_, fun hj => ?_⟩ <;> cases hj
  | cons h t =>
    rw [checkNoteHit_cons lane notes stats h t hfil]
    split_ifs with h1 h2
    · refine ⟨fun _ => rfl, fun hj => ?_⟩
      cases hj
    · refine ⟨fun hj => ?_, fun _ => rfl⟩
      cases hj
    · refine ⟨fun hj => ?_, fun hj => ?_⟩ <;> cases hj

/-- C2 witness: the eleventh consecutive PERFECT (prior combo 10) lands in
tier 2 and contributes `1000 × 2 = 2000` points. -/
theorem c2_score_increment_is_tiered_witness :
    (checkNoteHit 0 [probeNote 500] ⟨10000, 10, 10, 10, 0, 0⟩).stats.score = 12000 := by
  have hj : (checkNoteHit 0 [probeNote 500] ⟨10000, 10, 10, 10, 0, 0⟩).judgment =
      Judgment.PERFECT := by
    rw [(checkNoteHit_probe 500 ⟨10000, 10, 10, 10, 0, 0⟩).1
      (by norm_num [JUDGMENT_LINE_Y, PERFECT_THRESHOLD])]
  have hs := (c2_score_increment_is_tiered 0 [probeNote 500] ⟨10000, 10, 10, 10, 0, 0⟩).1 hj
  rw [hs]
  decide

/-- C4: judgment classification is by strict distance comparison — distance
below the perfect threshold is PERFECT, distance from the perfect threshold
(inclusive) up to the good threshold (exclusive) is GOOD, and distance at or
beyond the good threshold produces no hit at all: NONE with the note left
unresolved (hence still miss-eligible). -/
theorem c4_threshold_boundaries (y : ℚ) (stats : GameStats) :
    (|y - JUDGMENT_LINE_Y| < PERFECT_THRESHOLD →
      (checkNoteHit 0 [probeNote y] stats).judgment = Judgment.PERFECT) ∧
    (PERFECT_THRESHOLD ≤ |y - JUDGMENT_LINE_Y| → |y - JUDGMENT_LINE_Y| < GOOD_THRESHOLD →
      (checkNoteHit 0 [probeNote y] stats).judgment = Judgment.GOOD) ∧
    (GOOD_THRESHOLD ≤ |y - JUDGMENT_LINE_Y| →
      checkNoteHit 0 [probeNote y] stats = ⟨Judgment.NONE, [probeNote y], stats⟩ ∧
      (probeNote y).hit = false) := by
  obtain ⟨hp, hg, hn⟩ := checkNoteHit_probe y stats
  refine ⟨fun h => ?_, fun h1 h2 => ?_, fun h => ⟨hn h, rfl⟩⟩
  · rw [hp h]
  · rw [hg h1 h2]

/-- C4 witness: a note at distance exactly 40 (the perfect threshold) is GOOD,
and a note at distance exactly 80 (the good threshold) produces no hit and is
left unresolved. -/
theorem c4_threshold_boundaries_witness :
    (checkNoteHit 0 [probeNote 460] stats0).judgment = Judgment.GOOD ∧
    checkNoteHit 0 [probeNote 580] stats0 = ⟨Judgment.NONE, [probeNote 580], stats0⟩ := by
  constructor
  · exact (c4_threshold_boundaries 460 stats0).2.1
      (by norm_num [JUDGMENT_LINE_Y, PERFECT_THRESHOLD])
      (by norm_num [JUDGMENT_LINE_Y, GOOD_THRESHOLD])
  · exact ((c4_threshold_boundaries 580 stats0).2.2
      (by norm_num [JUDGMENT_LINE_Y, GOOD_THRESHOLD])).1

/-- C6: in this variant `maxCombo` is touched only by the miss sweep, so a
single PERFECT hit from the initial stats leaves `combo = 1` while `maxCombo`
is still `0`, although the maximum combo value held during the session is `1`. -/
theorem c6_maxCombo_not_live :
    (checkNoteHit 0 [probeNote 500] stats0).stats.combo = 1 ∧
    (checkNoteHit 0 [probeNote 500] stats0).stats.maxCombo = 0 := by
  have he := (checkNoteHit_probe 500 stats0).1
    (by norm_num [JUDGMENT_LINE_Y, PERFECT_THRESHOLD])
  rw [he]
  exact ⟨rfl, rfl⟩

/-- C9: a keypress whose lane has no qualifying note yields the NONE judgment
and changes nothing: notes and stats are returned untouched. -/
theorem c9_unmatched_keypress_noop (lane : Nat) (notes : List Note) (stats : GameStats)
    (hfil : notes.filter (qualifiesHit lane) = []) :
    checkNoteHit lane notes stats = ⟨Judgment.NONE, notes, stats⟩ :=
  checkNoteHit_nil lane notes stats hfil

/-- C9 witness: a keypress on lane 0 while the only note is far above the
window is a no-op with judgment NONE. -/
theorem c9_unmatched_keypress_noop_witness :
    checkNoteHit 0 [probeNote 300] stats0 = ⟨Judgment.NONE, [probeNote 300], stats0⟩ :=
  c9_unmatched_keypress_noop 0 [probeNote 300] stats0
    (filter_probe_out 300 (by norm_num [JUDGMENT_LINE_Y, GOOD_THRESHOLD]))

/-- Projection lemma: the elapsed value returned by a tick. -/
theorem tickClock_snd (t : ℚ) (c : ClockState) :
    (tickClock t c).2 = t - (if c.startTime = 0 then t - c.pauseTime else c.startTime) :=
  rfl

/-- Projection lemma: the clock state left by a tick. -/
theorem tickClock_fst (t : ℚ) (c : ClockState) :
    (tickClock t c).1 =
      ⟨if c.startTime = 0 then t - c.pauseTime else c.startTime, c.pauseTime⟩ :=
  rfl

/-- C3: pausing and then resuming at the same synthetic timestamp leaves the
elapsed value of the next tick exactly where it was at the tick before the
pause.  The state `c` is arbitrary, so the equation holds across any number of
earlier pause/resume cycles. -/
theorem c3_pause_resume_preserves_elapsed (c : ClockState) (t : ℚ) :
    (tickClock t (resumeClock (pauseClock t (tickClock t c).1))).2 = (tickClock t c).2 := by
  obtain ⟨st0, p0⟩ := c
  simp [tickClock, pauseClock, resumeClock]
  split_ifs with h1 h2 <;> ring_nf

/-- C8: every generated chart is sorted by non-decreasing `startTime`, for
every lane count, difficulty and random source. -/
theorem c8_generated_chart_sorted (keyMode : Nat) (difficulty : Difficulty)
    (rand : Nat → ℚ) (fuel : Nat) :
    (generateNotes keyMode difficulty rand fuel).Pairwise
      (fun a b => a.startTime ≤ b.startTime) := by
  unfold generateNotes
  refine List.Pairwise.imp ?_ (List.sorted_mergeSort ?_ ?_ _)
  · intro a b hab
    exact of_decide_eq_true hab
  · intro a b c hab hbc
    rw [decide_eq_true_eq] at hab hbc ⊢
    exact le_trans hab hbc
  · intro a b
    rcases le_total a.startTime b.startTime with h | h
    · simp [h]
    · simp [h]

/-- C10: a keydown judges only when the session is playing and the lane is not
already held; a repeated keydown is a no-op (the handler is idempotent until a
keyup), and a keyup removes the lane from the pressed set. -/
theorem c10_keydown_gating (s : InputState) (code : String) :
    (s.gameStatus ≠ GameStatus.playing → handleKeyDown code s = s) ∧
    (∀ lane, keyMap4 code = some lane → lane ∈ s.pressedKeys → handleKeyDown code s = s) ∧
    handleKeyDown code (handleKeyDown code s) = handleKeyDown code s ∧
    ∀ lane, keyMap4 code = some lane → lane ∉ (handleKeyUp code s).pressedKeys := by
  refine ⟨?_, ?_, ?_, ?_⟩
  · intro hg
    unfold handleKeyDown
    rw [if_pos hg]
  · intro lane hmap hmem
    unfold handleKeyDown
    by_cases hg : s.gameStatus ≠ GameStatus.playing
    · rw [if_pos hg]
    · rw [if_neg hg, hmap]
      exact if_pos hmem
  · by_cases hg : s.gameStatus ≠ GameStatus.playing
    · have h1 : handleKeyDown code s = s := by
        unfold handleKeyDown
        rw [if_pos hg]
      rw [h1, h1]
    · cases hmap : keyMap4 code with
      | none =>
        have h1 : handleKeyDown code s = s := by
          unfold handleKeyDown
          rw [if_neg hg, hmap]
        rw [h1, h1]
      | some lane =>
        by_cases hmem : lane ∈ s.pressedKeys
        · have h1 : handleKeyDown code s = s := by
            unfold handleKeyDown
            rw [if_neg hg, hmap]
            exact if_pos hmem
          rw [h1, h1]
        · have h1 : handleKeyDown code s =
              { s with
                  pressedKeys := lane :: s.pressedKeys
                  notes := (checkNoteHit lane s.notes s.stats).notes
                  stats := (checkNoteHit lane s.notes s.stats).stats } := by
            unfold handleKeyDown
            rw [if_neg hg, hmap]
            exact if_neg hmem
          rw [h1]
          unfold handleKeyDown
          dsimp only
          rw [if_neg hg, hmap]
          exact if_pos (List.mem_cons_self lane s.pressedKeys)
  · intro lane hmap hmem
    unfold handleKeyUp at hmem
    rw [hmap] at hmem
    rw [List.mem_filter] at hmem
    simp at hmem

/-- Example input state with lane 0 already held. -/
def sHeld : InputState :=
  ⟨GameStatus.playing, [0], [probeNote 500], stats0⟩

/-- Example input state in the paused session state. -/
def sPaused : InputState :=
  ⟨GameStatus.paused, [], [probeNote 500], stats0⟩

/-- C10 witness: a keydown in the paused state is a no-op, a keydown for an
already-held lane is a no-op, and a keyup removes the lane from the set. -/
theorem c10_keydown_gating_witness :
    handleKeyDown "KeyA" sPaused = sPaused ∧
    handleKeyDown "KeyA" sHeld = sHeld ∧
    (0 : Nat) ∉ (handleKeyUp "KeyA" sHeld).pressedKeys := by
  refine ⟨?_, ?_, ?_⟩
  · exact (c10_keydown_gating sPaused "KeyA").1 (by decide)
  · exact (c10_keydown_gating sHeld "KeyA").2.1 0 rfl (by decide)
  · exact (c10_keydown_gating sHeld "KeyA").2.2.2 0 rfl

/-- The result of the `reduce` accumulator is one of the scanned notes. -/
theorem foldl_closerNote_mem (h : Note) (t : List Note) :
    t.foldl closerNote h ∈ h :: t := by
  induction t generalizing h with
  | nil => exact List.mem_singleton.mpr rfl
  | cons a t ih =>
    rw [List.foldl_cons]
    rcases List.mem_cons.mp (ih (closerNote h a)) with h1 | h1
    · rw [h1]
      unfold closerNote
      split
      · exact List.mem_cons_of_mem _ (List.mem_cons_self _ _)
      · exact List.mem_cons_self _ _
    · exact List.mem_cons_of_mem _ (List.mem_cons_of_mem _ h1)

/-- The result of the `reduce` accumulator has minimal distance to the
judgment line among the scanned notes. -/
theorem foldl_closerNote_min (h : Note) (t : List Note) :
    ∀ n ∈ h :: t, noteDistance (t.foldl closerNote h) ≤ noteDistance n := by
  induction t generalizing h with
  | nil =>
    intro n hn
    rw [List.mem_singleton] at hn
    subst hn
    exact le_refl _
  | cons a t ih =>
    intro n hn
    rw [List.foldl_cons]
    have key : noteDistance (closerNote h a) ≤ noteDistance h ∧
        noteDistance (closerNote h a) ≤ noteDistance a := by
      unfold closerNote
      split
      · exact ⟨le_of_lt (by assumption), le_refl _⟩
      · exact ⟨le_refl _, le_of_not_lt (by assumption)⟩
    rcases List.mem_cons.mp hn with h1 | h1
    · rw [h1]
      exact le_trans (ih (closerNote h a) _ (List.mem_cons_self _ _)) key.1
    · rcases List.mem_cons.mp h1 with h2 | h2
      · rw [h2]
        exact le_trans (ih (closerNote h a) _ (List.mem_cons_self _ _)) key.2
      · exact ih (closerNote h a) n (List.mem_cons_of_mem _ h2)

/-- A note accepted by the lane filter is unresolved. -/
theorem qualifiesHit_hit_false {lane : Nat} {n : Note} (h : qualifiesHit lane n = true) :
    n.hit = false := by
  unfold qualifiesHit at h
  simp only [Bool.and_eq_true, Bool.not_eq_true', decide_eq_true_eq] at h
  exact h.1.1.2

/-- A note accepted by the lane filter is within the good window. -/
theorem qualifiesHit_window {lane : Nat} {n : Note} (h : qualifiesHit lane n = true) :
    noteDistance n < GOOD_THRESHOLD := by
  unfold qualifiesHit at h
  simp only [Bool.and_eq_true, Bool.not_eq_true', decide_eq_true_eq] at h
  unfold noteDistance
  rw [abs_sub_lt_iff]
  obtain ⟨⟨⟨_, _⟩, hgt⟩, hlt⟩ := h
  constructor <;> linarith

/-- C1: when at least one note in the lane qualifies, `checkNoteHit` resolves
exactly one qualifying note of minimal distance to the judgment line, with a
non-NONE judgment; every other qualifying note stays in the list unchanged and
unresolved (distinct note ids, as produced by the generator's id counter). -/
theorem c1_nearest_note_wins (lane : Nat) (notes : List Note) (stats : GameStats)
    (hnodup : (notes.map Note.id).Nodup)
    (hne : notes.filter (qualifiesHit lane) ≠ []) :
    ∃ chosen, chosen ∈ notes.filter (qualifiesHit lane) ∧
      (∀ n ∈ notes.filter (qualifiesHit lane), noteDistance chosen ≤ noteDistance n) ∧
      (checkNoteHit lane notes stats).judgment ≠ Judgment.NONE ∧
      (checkNoteHit lane notes stats).notes = markHit chosen.id notes ∧
      { chosen with hit := true } ∈ (checkNoteHit lane notes stats).notes ∧
      ∀ n ∈ notes.filter (qualifiesHit lane), n ≠ chosen →
        n ∈ (checkNoteHit lane notes stats).notes ∧ n.hit = false := by
  cases hfil : notes.filter (qualifiesHit lane) with
  | nil => exact absurd hfil hne
  | cons h t =>
    have hmemFil : t.foldl closerNote h ∈ notes.filter (qualifiesHit lane) := by
      rw [hfil]
      exact foldl_closerNote_mem h t
    have hq : qualifiesHit lane (t.foldl closerNote h) = true :=
      (List.mem_filter.mp hmemFil).2
    have hmemNotes : t.foldl closerNote h ∈ notes := List.mem_of_mem_filter hmemFil
    have hlt80 : noteDistance (t.foldl closerNote h) < GOOD_THRESHOLD :=
      qualifiesHit_window hq
    have hrest : (checkNoteHit lane notes stats).judgment ≠ Judgment.NONE ∧
        (checkNoteHit lane notes stats).notes = markHit (t.foldl closerNote h).id notes := by
      rw [checkNoteHit_cons lane notes stats h t hfil]
      split_ifs with h40
      · exact ⟨fun hc => Judgment.noConfusion hc, rfl⟩
      · exact ⟨fun hc => Judgment.noConfusion hc, rfl⟩
    refine ⟨t.foldl closerNote h, foldl_closerNote_mem h t, foldl_closerNote_min h t,
      hrest.1, hrest.2, ?_, ?_⟩
    · rw [hrest.2]
      unfold markHit
      refine List.mem_map.mpr ⟨t.foldl closerNote h, hmemNotes, ?_⟩
      simp
    · intro n hn hne2
      have hnFil : n ∈ notes.filter (qualifiesHit lane) := by
        rw [hfil]
        exact hn
      have hqn : qualifiesHit lane n = true := (List.mem_filter.mp hnFil).2
      have hnNotes : n ∈ notes := List.mem_of_mem_filter hnFil
      have hid : n.id ≠ (t.foldl closerNote h).id := by
        intro hc
        exact hne2 (List.inj_on_of_nodup_map hnodup hnNotes hmemNotes hc)
      refine ⟨?_, qualifiesHit_hit_false hqn⟩
      rw [hrest.2]
      unfold markHit
      refine List.mem_map.mpr ⟨n, hnNotes, ?_⟩
      simp [hid]

/-- Two unresolved notes in lane 0, both inside the good window; the second
(id 1, at 510) is nearer to the judgment line than the first (id 0, at 560). -/
def c1Notes : List Note :=
  [⟨0, 0, 1000, 560, false⟩, ⟨1, 0, 1500, 510, false⟩]

/-- C1 witness: with two qualifying notes in the lane, the keypress resolves
the nearer one and leaves the other unresolved. -/
theorem c1_nearest_note_wins_witness :
    ∃ chosen, chosen ∈ c1Notes.filter (qualifiesHit 0) ∧
      (∀ n ∈ c1Notes.filter (qualifiesHit 0), noteDistance chosen ≤ noteDistance n) ∧
      (checkNoteHit 0 c1Notes stats0).judgment ≠ Judgment.NONE ∧
      (checkNoteHit 0 c1Notes stats0).notes = markHit chosen.id c1Notes ∧
      { chosen with hit := true } ∈ (checkNoteHit 0 c1Notes stats0).notes ∧
      ∀ n ∈ c1Notes.filter (qualifiesHit 0), n ≠ chosen →
        n ∈ (checkNoteHit 0 c1Notes stats0).notes ∧ n.hit = false := by
  have hfil : c1Notes.filter (qualifiesHit 0) = c1Notes := by
    norm_num [c1Notes, List.filter, qualifiesHit, JUDGMENT_LINE_Y, GOOD_THRESHOLD]
  apply c1_nearest_note_wins
  · decide
  · rw [hfil]
    simp [c1Notes]

/-- Unfolding lemma: one step of the miss sweep's stats fold. -/
theorem missSweepStats_cons (a : Note) (l : List Note) (s : GameStats) :
    missSweepStats (a :: l) s = missSweepStats l (if isMissed a then missStats s else s) :=
  rfl

/-- The miss sweep increments the miss counter once per missed note. -/
theorem missSweepStats_miss (notes : List Note) (stats : GameStats) :
    (missSweepStats notes stats).miss = stats.miss + (notes.filter isMissed).length := by
  induction notes generalizing stats with
  | nil => rfl
  | cons a l ih =>
    rw [missSweepStats_cons]
    by_cases ha : isMissed a = true
    · rw [if_pos ha, ih, List.filter_cons, if_pos ha]
      simp [missStats]
      omega
    · rw [if_neg ha, ih, List.filter_cons, if_neg ha]

/-- Once the combo is zero, later miss handling keeps it zero and leaves
`maxCombo` unchanged. -/
theorem missSweepStats_combo_zero (notes : List Note) (s : GameStats) (h : s.combo = 0) :
    (missSweepStats notes s).combo = 0 ∧ (missSweepStats notes s).maxCombo = s.maxCombo := by
  induction notes generalizing s with
  | nil => exact ⟨h, rfl⟩
  | cons a l ih =>
    rw [missSweepStats_cons]
    by_cases ha : isMissed a = true
    · rw [if_pos ha]
      have hz := ih (missStats s) (by simp [missStats])
      refine ⟨hz.1, ?_⟩
      rw [hz.2]
      simp [missStats, h]
    · rw [if_neg ha]
      exact ih s h

/-- If at least one note misses, the sweep resets the combo to zero and folds
the pre-reset combo into `maxCombo`. -/
theorem missSweepStats_pos (notes : List Note) (s : GameStats)
    (h : notes.filter isMissed ≠ []) :
    (missSweepStats notes s).combo = 0 ∧
    (missSweepStats notes s).maxCombo = max s.maxCombo s.combo := by
  induction notes generalizing s with
  | nil => simp at h
  | cons a l ih =>
    rw [missSweepStats_cons]
    by_cases ha : isMissed a = true
    · rw [if_pos ha]
      have hz := missSweepStats_combo_zero l (missStats s) (by simp [missStats])
      refine ⟨hz.1, ?_⟩
      rw [hz.2]
      rfl
    · rw [if_neg ha]
      rw [List.filter_cons, if_neg ha] at h
      exact ih s h

/-- If no note misses, the sweep leaves the stats untouched. -/
theorem missSweepStats_none (notes : List Note) (s : GameStats)
    (h : notes.filter isMissed = []) :
    missSweepStats notes s = s := by
  induction notes generalizing s with
  | nil => rfl
  | cons a l ih =>
    rw [missSweepStats_cons]
    by_cases ha : isMissed a = true
    · rw [List.filter_cons, if_pos ha] at h
      cases h
    · rw [if_neg ha]
      rw [List.filter_cons, if_neg ha] at h
      exact ih s h

/-- Pointwise effect of the whole sweep's marking passes on a single note. -/
def markScan (ms : List Note) (n : Note) : Note :=
  ms.foldl (fun x m => if x.id == m.id then { x with hit := true } else x) n

/-- The sweep's sequence of whole-list markings equals one map of the
pointwise scan. -/
theorem foldl_markHit_map (ms : List Note) (l : List Note) :
    ms.foldl (fun acc m => markHit m.id acc) l = l.map (markScan ms) := by
  induction ms generalizing l with
  | nil =>
    show l = l.map (markScan [])
    rw [show markScan [] = fun n => n from rfl]
    rw [List.map_id']
  | cons m ms ih =>
    rw [List.foldl_cons, ih]
    show (markHit m.id l).map (markScan ms) = _
    unfold markHit
    rw [List.map_map]
    rfl

/-- Evaluating the pointwise scan: a note is marked exactly when some missed
note of the scan list carries its id. -/
theorem markScan_eval (ms : List Note) (n : Note) :
    markScan ms n =
      if ms.any (fun m => n.id == m.id) then { n with hit := true } else n := by
  induction ms generalizing n with
  | nil => rfl
  | cons m ms ih =>
    show markScan ms (if (n.id == m.id) = true then { n with hit := true } else n) = _
    by_cases hm : (n.id == m.id) = true
    · rw [if_pos hm]
      rw [ih]
      have hcond : ((m :: ms).any fun m2 => n.id == m2.id) = true := by
        rw [List.any_cons, hm, Bool.true_or]
      rw [if_pos hcond]
      dsimp only
      rw [ite_self]
    · rw [if_neg hm]
      rw [ih]
      have hfalse : (n.id == m.id) = false := by
        cases hb : (n.id == m.id)
        · rfl
        · exact absurd hb hm
      have hcond : ((m :: ms).any fun m2 => n.id == m2.id) = (ms.any fun m2 => n.id == m2.id) := by
        rw [List.any_cons, hfalse, Bool.false_or]
      rw [hcond]

/-- With distinct note ids, the miss sweep marks exactly the notes satisfying
the miss condition and leaves every other note unchanged. -/
theorem missSweepNotes_map (notes : List Note) (hnodup : (notes.map Note.id).Nodup) :
    missSweepNotes notes =
      notes.map fun n => if isMissed n then { n with hit := true } else n := by
  unfold missSweepNotes
  rw [foldl_markHit_map]
  apply List.map_congr_left
  intro n hn
  rw [markScan_eval]
  by_cases hm : isMissed n = true
  · rw [if_pos hm, if_pos ?_]
    rw [List.any_eq_true]
    exact ⟨n, List.mem_filter.mpr ⟨hn, hm⟩, beq_self_eq_true _⟩
  · rw [if_neg hm, if_neg ?_]
    rw [List.any_eq_true]
    rintro ⟨m, hmFil, hidBeq⟩
    have hmNotes : m ∈ notes := List.mem_of_mem_filter hmFil
    have hid : n.id = m.id := by
      rwa [beq_iff_eq] at hidBeq
    have : n = m := List.inj_on_of_nodup_map hnodup hn hmNotes hid
    rw [this] at hm
    exact hm (List.mem_filter.mp hmFil).2

/-- C5: in one frame's miss sweep, every unresolved note beyond
`judgmentLine + goodThreshold` is marked resolved (and only those change), the
miss counter grows by one per such note, and when at least one note misses the
combo is reset to 0 with `maxCombo` updated to the maximum of its previous
value and the pre-reset combo; a sweep with no missed note changes nothing. -/
theorem c5_miss_sweep (notes : List Note) (stats : GameStats)
    (hnodup : (notes.map Note.id).Nodup) :
    missSweepNotes notes =
      (notes.map fun n => if isMissed n then { n with hit := true } else n) ∧
    (missSweepStats notes stats).miss = stats.miss + (notes.filter isMissed).length ∧
    (notes.filter isMissed ≠ [] →
      (missSweepStats notes stats).combo = 0 ∧
      (missSweepStats notes stats).maxCombo = max stats.maxCombo stats.combo) ∧
    (notes.filter isMissed = [] → missSweepStats notes stats = stats) :=
  ⟨missSweepNotes_map notes hnodup, missSweepStats_miss notes stats,
   fun h => missSweepStats_pos notes stats h,
   fun h => missSweepStats_none notes stats h⟩

/-- A two-note frame snapshot: note 0 is past the miss line (581 > 580),
note 1 is still above the window. -/
def c5Notes : List Note :=
  [⟨0, 0, 1000, 581, false⟩, ⟨1, 1, 1200, 300, false⟩]

/-- Stats before the sweep of the C5 witness: combo 5, maxCombo 3. -/
def c5Stats : GameStats :=
  ⟨7000, 5, 3, 6, 1, 0⟩

/-- C5 witness: sweeping the concrete snapshot marks the late note, adds one
miss, zeroes the combo and lifts `maxCombo` to the pre-reset combo. -/
theorem c5_miss_sweep_witness :
    (missSweepStats c5Notes c5Stats).combo = 0 ∧
    (missSweepStats c5Notes c5Stats).maxCombo = max c5Stats.maxCombo c5Stats.combo ∧
    (missSweepStats c5Notes c5Stats).miss =
      c5Stats.miss + (c5Notes.filter isMissed).length ∧
    missSweepNotes c5Notes =
      (c5Notes.map fun n => if isMissed n then { n with hit := true } else n) := by
  have h := c5_miss_sweep c5Notes c5Stats (by decide)
  have hne : c5Notes.filter isMissed ≠ [] := by
    norm_num [c5Notes, List.filter, isMissed, JUDGMENT_LINE_Y, GOOD_THRESHOLD]
  exact ⟨(h.2.2.1 hne).1, (h.2.2.1 hne).2, h.2.1, h.1⟩

/-- Mapping a function that fixes resolved notes over the list leaves a
resolved entry (read positionally with `getD`) untouched. -/
theorem getD_map_of_hit (f : Note → Note) (hf : ∀ n, n.hit = true → f n = n)
    (l : List Note) (i : Nat) (hhit : (l.getD i dummyNote).hit = true) :
    (l.map f).getD i dummyNote = l.getD i dummyNote := by
  rw [List.getD_eq_getElem?_getD] at hhit
  rw [List.getD_eq_getElem?_getD, List.getD_eq_getElem?_getD, List.getElem?_map]
  cases hoc : l[i]? with
  | none => rfl
  | some n =>
    rw [hoc] at hhit
    show f n = n
    exact hf n hhit

/-- Marking by id fixes an already-resolved note. -/
theorem markHit_fun_hit (cid : Nat) : ∀ n : Note, n.hit = true →
    (if n.id == cid then { n with hit := true } else n) = n := by
  intro n h
  obtain ⟨a, b, c, d, e⟩ := n
  dsimp only at h
  subst h
  by_cases hc : (a == cid) = true
  · rw [if_pos hc]
  · rw [if_neg hc]

/-- The pointwise sweep scan fixes an already-resolved note. -/
theorem markScan_fun_hit (ms : List Note) : ∀ n : Note, n.hit = true →
    markScan ms n = n := by
  intro n h
  rw [markScan_eval]
  obtain ⟨a, b, c, d, e⟩ := n
  dsimp only at h
  subst h
  dsimp only
  rw [ite_self]

/-- The position update fixes an already-resolved note. -/
theorem updatePositions_fun_hit (elapsed sm ds : ℚ) : ∀ n : Note, n.hit = true →
    (if n.hit then n else { n with currentY := notePosition elapsed sm ds n }) = n := by
  intro n h
  rw [if_pos h]

/-- The note list returned by `checkNoteHit` is either the input list or the
input list with one id marked as hit. -/
theorem checkNoteHit_notes_shape (lane : Nat) (notes : List Note) (stats : GameStats) :
    (checkNoteHit lane notes stats).notes = notes ∨
    ∃ cid, (checkNoteHit lane notes stats).notes = markHit cid notes := by
  cases hfil : notes.filter (qualifiesHit lane) with
  | nil =>
    left
    rw [checkNoteHit_nil lane notes stats hfil]
  | cons h t =>
    rw [checkNoteHit_cons lane notes stats h t hfil]
    split_ifs with h1 h2
    · right
      exact ⟨(t.foldl closerNote h).id, rfl⟩
    · right
      exact ⟨(t.foldl closerNote h).id, rfl⟩
    · left
      rfl

/-- C7: a resolved note is frozen — the per-frame position update, any
judgment call and the miss sweep all return it unchanged at its position, it
never re-qualifies for a hit, and it never satisfies the miss condition, so it
can contribute to no further counter. -/
theorem c7_resolved_note_frozen (lane : Nat) (elapsed sm ds : ℚ) (notes : List Note)
    (stats : GameStats) (i : Nat)
    (hhit : (notes.getD i dummyNote).hit = true) :
    (updatePositions elapsed sm ds notes).getD i dummyNote = notes.getD i dummyNote ∧
    (checkNoteHit lane notes stats).notes.getD i dummyNote = notes.getD i dummyNote ∧
    (missSweepNotes notes).getD i dummyNote = notes.getD i dummyNote ∧
    qualifiesHit lane (notes.getD i dummyNote) = false ∧
    isMissed (notes.getD i dummyNote) = false := by
  refine ⟨?_, ?_, ?_, ?_, ?_⟩
  · exact getD_map_of_hit _ (updatePositions_fun_hit elapsed sm ds) notes i hhit
  · rcases checkNoteHit_notes_shape lane notes stats with hsh | ⟨cid, hsh⟩
    · rw [hsh]
    · rw [hsh]
      exact getD_map_of_hit _ (markHit_fun_hit cid) notes i hhit
  · rw [show missSweepNotes notes = notes.map (markScan (notes.filter isMissed)) from
      foldl_markHit_map (notes.filter isMissed) notes]
    exact getD_map_of_hit _ (markScan_fun_hit (notes.filter isMissed)) notes i hhit
  · unfold qualifiesHit
    rw [hhit]
    simp
  · unfold isMissed
    rw [hhit]
    simp

/-- C7 witness: a concrete resolved note at index 0 passes through all three
operations unchanged and qualifies for neither a hit nor a miss. -/
theorem c7_resolved_note_frozen_witness :
    (updatePositions 2000 1 1 [⟨0, 0, 1000, 500, true⟩]).getD 0 dummyNote =
      ([⟨0, 0, 1000, 500, true⟩] : List Note).getD 0 dummyNote ∧
    (checkNoteHit 0 [⟨0, 0, 1000, 500, true⟩] stats0).notes.getD 0 dummyNote =
      ([⟨0, 0, 1000, 500, true⟩] : List Note).getD 0 dummyNote ∧
    (missSweepNotes [⟨0, 0, 1000, 500, true⟩]).getD 0 dummyNote =
      ([⟨0, 0, 1000, 500, true⟩] : List Note).getD 0 dummyNote ∧
    qualifiesHit 0 (([⟨0, 0, 1000, 500, true⟩] : List Note).getD 0 dummyNote) = false ∧
    isMissed (([⟨0, 0, 1000, 500, true⟩] : List Note).getD 0 dummyNote) = false :=
  c7_resolved_note_frozen 0 2000 1 1 [⟨0, 0, 1000, 500, true⟩] stats0 0 rfl
